import Mathlib

/-!
Shallow embedding of `test_util/helpers.go` from the gorouter repository.

The Go file builds ephemeral self-signed X.509 certificates (RSA and EC
variants), PEM-encodes them, reloads them as TLS credentials, and assembles
test configurations.  Effectful library calls (clock reads, randomness, key
generation, ASN.1 marshalling, certificate signing) are modelled by explicit
environment records carrying each call's outcome; `Expect(err).ToNot(HaveOccurred())`
aborts are modelled by `Except.error TestFailure.expectFailed`.
Certificate DER bytes are modelled by their parsed field view, and PEM text
by a list of chunks (blocks and literal newlines), so that string
concatenation in the source becomes list append.
-/

/-- Time instants and durations, in nanoseconds (Go `time.Time` / `time.Duration`). -/
abbrev Time := Int

/-- One second as a Go duration (nanoseconds). -/
def timeSecond : Int := 1000000000

/-- One millisecond as a Go duration (nanoseconds). -/
def timeMillisecond : Int := 1000000

/-- One hour as a Go duration (`time.Hour`), in nanoseconds. -/
def timeHour : Int := 3600 * timeSecond

/-- A gomega `Expect(err).ToNot(HaveOccurred())` failure: aborts the calling test. -/
inductive TestFailure where
  | expectFailed
deriving DecidableEq, Repr

/-- RSA public key; the concrete modulus/exponent material is abstracted to a seed. -/
structure RSAPublicKey where
  material : Nat
deriving DecidableEq, Repr

/-- RSA private key as produced by `rsa.GenerateKey(rand.Reader, 2048)`;
the secret material is abstracted to a seed, from which the public key derives. -/
structure RSAPrivateKey where
  material : Nat
deriving DecidableEq, Repr

/-- The public key derived from an RSA private key (`privKey.PublicKey`). -/
def RSAPrivateKey.publicKey (k : RSAPrivateKey) : RSAPublicKey :=
  ⟨k.material⟩

/-- EC (P-256) public key, abstracted to a seed. -/
structure ECPublicKey where
  material : Nat
deriving DecidableEq, Repr

/-- EC private key as produced by `ecdsa.GenerateKey(elliptic.P256(), rand.Reader)`;
abstracted to a seed, from which the public key derives. -/
structure ECPrivateKey where
  material : Nat
deriving DecidableEq, Repr

/-- The public key derived from an EC private key (`privKey.PublicKey`). -/
def ECPrivateKey.publicKey (k : ECPrivateKey) : ECPublicKey :=
  ⟨k.material⟩

/-- A public key of either algorithm (Go `crypto.PublicKey` as used here). -/
inductive PublicKey where
  | rsa (k : RSAPublicKey)
  | ec (k : ECPublicKey)
deriving DecidableEq, Repr

/-- A private key of either algorithm (Go `crypto.PrivateKey` as used here). -/
inductive PrivKey where
  | rsa (k : RSAPrivateKey)
  | ec (k : ECPrivateKey)
deriving DecidableEq, Repr

/-- The public key corresponding to a private key. -/
def PrivKey.publicKey : PrivKey → PublicKey
  | .rsa k => .rsa k.publicKey
  | .ec k => .ec k.publicKey

/-- Go `pkix.Name` as used by the source: `Organization` list and `CommonName`
string whose zero value is the empty string. -/
structure PkixName where
  organization : List String := []
  commonName : String := ""
deriving DecidableEq, Repr

/-- A marshalled distinguished name as it appears in an issued certificate:
the common-name attribute is either present or absent. -/
structure DistinguishedName where
  organization : List String
  commonName : Option String
deriving DecidableEq, Repr

/-- Marshalling of a `pkix.Name` into the certificate's RDN sequence, per the
`crypto/x509` library contract: an empty `CommonName` string produces no
common-name attribute at all. -/
def PkixName.toRDN (n : PkixName) : DistinguishedName :=
  { organization := n.organization
  , commonName := if n.commonName = "" then none else some n.commonName }

/-- Signature algorithms used by the source (`x509.SHA256WithRSA`,
`x509.ECDSAWithSHA256`). -/
inductive SignatureAlgorithm where
  | sha256WithRSA
  | ecdsaWithSHA256
deriving DecidableEq, Repr

/-- The fields of the `x509.Certificate` literal built by `CreateKeyPair` and
`CreateECKeyPair` (template role).  `isCA` keeps Go's zero value `false`, as the
source never sets it. -/
structure CertTemplate where
  serialNumber : Nat
  subject : PkixName
  signatureAlgorithm : SignatureAlgorithm
  notBefore : Time
  notAfter : Time
  basicConstraintsValid : Bool
  isCA : Bool := false
deriving DecidableEq, Repr

/-- The parsed view of an issued certificate's DER bytes. -/
structure Certificate where
  serialNumber : Nat
  subject : DistinguishedName
  issuer : DistinguishedName
  signatureAlgorithm : SignatureAlgorithm
  notBefore : Time
  notAfter : Time
  basicConstraintsValid : Bool
  isCA : Bool
  publicKey : PublicKey
  signedWith : PrivKey
deriving DecidableEq, Repr

/-- Successful outcome of `x509.CreateCertificate(rand, template, parent, pub, priv)`
per the library contract: the subject comes from the template, the issuer from the
parent's subject, the certificate certifies `pub` and is signed with `priv`. -/
def createCertificate (tmpl parent : CertTemplate) (pub : PublicKey)
    (priv : PrivKey) : Certificate :=
  { serialNumber := tmpl.serialNumber
  , subject := tmpl.subject.toRDN
  , issuer := parent.subject.toRDN
  , signatureAlgorithm := tmpl.signatureAlgorithm
  , notBefore := tmpl.notBefore
  , notAfter := tmpl.notAfter
  , basicConstraintsValid := tmpl.basicConstraintsValid
  , isCA := tmpl.isCA
  , publicKey := pub
  , signedWith := priv }

/-- The payload of a PEM block: certificate DER, a PKCS#1-encoded RSA key
(`x509.MarshalPKCS1PrivateKey`), a SEC1-encoded EC key
(`x509.MarshalECPrivateKey`), or raw ASN.1 bytes. -/
inductive PEMPayload where
  | certDER (c : Certificate)
  | pkcs1RSAKey (k : RSAPrivateKey)
  | sec1ECKey (k : ECPrivateKey)
  | raw (bs : List Nat)
deriving DecidableEq, Repr

/-- A PEM block (`pem.Block`): a type label and a payload. -/
structure PEMBlock where
  type : String
  bytes : PEMPayload
deriving DecidableEq, Repr

/-- A chunk of PEM text: either an encoded block or a literal newline inserted
by `fmt.Sprintf`. -/
inductive PEMChunk where
  | block (b : PEMBlock)
  | newline
deriving DecidableEq, Repr

/-- PEM text, modelled as the sequence of its chunks; Go string concatenation
of PEM texts becomes list append. -/
abbrev PEMText := List PEMChunk

/-- Go `pem.EncodeToMemory`: renders a single block as text. -/
def pemEncodeToMemory (b : PEMBlock) : PEMText :=
  [.block b]

/-- Splitting PEM text into its blocks (repeated `pem.Decode`). -/
def pemBlocks (t : PEMText) : List PEMBlock :=
  t.filterMap fun c =>
    match c with
    | .block b => some b
    | .newline => none

/-- The first certificate carried by a PEM text (the parse of its first
`CERTIFICATE` block). -/
def parsedCert (t : PEMText) : Option Certificate :=
  ((pemBlocks t).filterMap fun b =>
    if b.type = "CERTIFICATE" then
      match b.bytes with
      | .certDER c => some c
      | _ => none
    else none).head?

/-- Go `new(big.Int).Lsh(big.NewInt(1), 128)`: the exclusive upper bound for
serial numbers. -/
def serialNumberLimit : Nat := Nat.shiftLeft 1 128

/-- Model of `rand.Int(rand.Reader, max)` on success: the library guarantees a
uniform value in `[0, max)`; the entropy actually read is abstracted to a
natural `r` supplied by the environment, reduced into range. -/
def randIntValue (r bound : Nat) : Nat :=
  r % bound

/-- Environment for one `CreateKeyPair` call: the two `time.Now()` readings
(in source order), the outcome of `rand.Int` (entropy value or failure), the
outcome of `rsa.GenerateKey`, and whether `x509.CreateCertificate` succeeds. -/
structure RSAEnv where
  now1 : Time
  now2 : Time
  serialRandom : Except Unit Nat
  rsaKey : Except Unit RSAPrivateKey
  signOk : Bool

/-- Embedding of `CreateKeyPair(cname string) (keyPEM, certPEM []byte)`. -/
def createKeyPair (env : RSAEnv) (cname : String) :
    Except TestFailure (PEMText × PEMText) :=
  match env.serialRandom with
  | .error _ => .error .expectFailed
  | .ok r =>
    let serialNumber := randIntValue r serialNumberLimit
    let subject : PkixName := { organization := ["xyz, Inc."] }
    let subject := if cname ≠ "" then { subject with commonName := cname } else subject
    let tmpl : CertTemplate :=
      { serialNumber := serialNumber
      , subject := subject
      , signatureAlgorithm := .sha256WithRSA
      , notBefore := env.now1
      , notAfter := env.now2 + timeHour
      , basicConstraintsValid := true }
    match env.rsaKey with
    | .error _ => .error .expectFailed
    | .ok privKey =>
      if env.signOk then
        let cert := createCertificate tmpl tmpl (.rsa privKey.publicKey) (.rsa privKey)
        let certPEM := pemEncodeToMemory ⟨"CERTIFICATE", .certDER cert⟩
        let keyPEM := pemEncodeToMemory ⟨"RSA PRIVATE KEY", .pkcs1RSAKey privKey⟩
        .ok (keyPEM, certPEM)
      else .error .expectFailed

/-- The object identifier marshalled by `CreateECKeyPair`:
`asn1.ObjectIdentifier{1, 2, 840, 10045, 4, 3, 2}`. -/
def ecdsaOidValue : List Nat := [1, 2, 840, 10045, 4, 3, 2]

/-- Environment for one `CreateECKeyPair` call: the two `time.Now()` readings,
the outcome of `rand.Int`, the outcome of `ecdsa.GenerateKey`, whether
`x509.CreateCertificate` succeeds, whether `x509.MarshalECPrivateKey`
succeeds, and the outcome of `asn1.Marshal` applied to an object identifier
(bytes on success, as Go returns `(nil, err)` on failure). -/
structure ECEnv where
  now1 : Time
  now2 : Time
  serialRandom : Except Unit Nat
  ecKey : Except Unit ECPrivateKey
  signOk : Bool
  marshalECOk : Bool
  asn1Marshal : List Nat → Except Unit (List Nat)

/-- Embedding of `CreateECKeyPair(cname string) (keyPEM, certPEM []byte)`.
Note the error returned by `asn1.Marshal` is assigned but never checked in the
source, so on failure the code continues with the `nil` byte slice. -/
def createECKeyPair (env : ECEnv) (cname : String) :
    Except TestFailure (PEMText × PEMText) :=
  match env.serialRandom with
  | .error _ => .error .expectFailed
  | .ok r =>
    let serialNumber := randIntValue r serialNumberLimit
    let subject : PkixName := { organization := ["xyz, Inc."] }
    let subject := if cname ≠ "" then { subject with commonName := cname } else subject
    let tmpl : CertTemplate :=
      { serialNumber := serialNumber
      , subject := subject
      , signatureAlgorithm := .ecdsaWithSHA256
      , notBefore := env.now1
      , notAfter := env.now2 + timeHour
      , basicConstraintsValid := true }
    match env.ecKey with
    | .error _ => .error .expectFailed
    | .ok privKey =>
      if env.signOk then
        let cert := createCertificate tmpl tmpl (.ec privKey.publicKey) (.ec privKey)
        let certPEM := pemEncodeToMemory ⟨"CERTIFICATE", .certDER cert⟩
        if env.marshalECOk then
          let keyPEM := pemEncodeToMemory ⟨"EC PRIVATE KEY", .sec1ECKey privKey⟩
          let ecdsaOid :=
            match env.asn1Marshal ecdsaOidValue with
            | .ok bs => bs
            | .error _ => []
          let paramPEM := pemEncodeToMemory ⟨"EC PARAMETERS", .raw ecdsaOid⟩
          let keyPEM := paramPEM ++ keyPEM
          .ok (keyPEM, certPEM)
        else .error .expectFailed
      else .error .expectFailed

/-- A TLS credential (`tls.Certificate`): the parsed certificate chain and the
paired private key. -/
structure TLSCertificate where
  certificate : List Certificate
  privateKey : PrivKey
deriving DecidableEq, Repr

/-- Failure modes of `tls.X509KeyPair`. -/
inductive TLSError where
  | malformedPEM
  | keyCertificateMismatch
deriving DecidableEq, Repr

/-- The certificates read from the certificate argument of `tls.X509KeyPair`:
every PEM block whose type is exactly `CERTIFICATE`, in order. -/
def certChainOf (t : PEMText) : List Certificate :=
  (pemBlocks t).filterMap fun b =>
    if b.type = "CERTIFICATE" then
      match b.bytes with
      | .certDER c => some c
      | _ => none
    else none

/-- Go `strings.HasSuffix`, modelled over the strings' character lists. -/
def goHasSuffix (s suffix : String) : Bool :=
  List.isSuffixOf suffix.data s.data

/-- The private key read from the key argument of `tls.X509KeyPair`: the
library skips leading blocks (such as `EC PARAMETERS`) until it finds one
whose type ends in `PRIVATE KEY`, then parses its payload. -/
def keyOf (t : PEMText) : Option PrivKey :=
  match (pemBlocks t).find? (fun b => goHasSuffix b.type "PRIVATE KEY") with
  | none => none
  | some b =>
    match b.bytes with
    | .pkcs1RSAKey k => some (.rsa k)
    | .sec1ECKey k => some (.ec k)
    | _ => none

/-- Model of `tls.X509KeyPair(certPEMBlock, keyPEMBlock)` per the library
contract: parse the certificate chain and the private key, then require the
private key's public key to match the leaf certificate's. -/
def x509KeyPair (certPEMBlock keyPEMBlock : PEMText) :
    Except TLSError TLSCertificate :=
  match certChainOf certPEMBlock with
  | [] => .error .malformedPEM
  | leaf :: rest =>
    match keyOf keyPEMBlock with
    | none => .error .malformedPEM
    | some k =>
      if leaf.publicKey = k.publicKey then
        .ok ⟨leaf :: rest, k⟩
      else .error .keyCertificateMismatch

/-- Embedding of `CreateCert(cname string) tls.Certificate`. -/
def createCert (env : RSAEnv) (cname : String) :
    Except TestFailure TLSCertificate :=
  match createKeyPair env cname with
  | .error e => .error e
  | .ok (privKeyPEM, certPEM) =>
    match x509KeyPair certPEM privKeyPEM with
    | .error _ => .error .expectFailed
    | .ok tlsCert => .ok tlsCert

/-- Embedding of `CreateECCert(cname string) tls.Certificate`. -/
def createECCert (env : ECEnv) (cname : String) :
    Except TestFailure TLSCertificate :=
  match createECKeyPair env cname with
  | .error e => .error e
  | .ok (privKeyPEM, certPEM) =>
    match x509KeyPair certPEM privKeyPEM with
    | .error _ => .error .expectFailed
    | .ok tlsCert => .ok tlsCert

/-- Modelled from the spec: `config.StatusConfig` (the `config` package is not
under `src/`); a struct of named fields consumed opaquely. -/
structure StatusConfig where
  port : Nat := 0
  user : String := ""
  pass : String := ""
deriving DecidableEq, Repr

/-- Modelled from the spec: `config.NatsConfig`, a message-bus endpoint. -/
structure NatsConfig where
  host : String := ""
  port : Nat := 0
  user : String := ""
  pass : String := ""
deriving DecidableEq, Repr

/-- Modelled from the spec: `config.LoggingConfig`. -/
structure LoggingConfig where
  level : String := ""
  metronAddress : String := ""
  jobName : String := ""
deriving DecidableEq, Repr

/-- Modelled from the spec: `config.OAuthConfig`. -/
structure OAuthConfig where
  tokenEndpoint : String := ""
  port : Nat := 0
  skipSSLValidation : Bool := false
deriving DecidableEq, Repr

/-- Modelled from the spec: `config.Tracing`. -/
structure Tracing where
  enableZipkin : Bool := false
deriving DecidableEq, Repr

/-- Modelled from the spec: the fields of `config.Config` touched by
`generateConfig` and `SpecSSLConfig` — ports, timeouts, intervals,
credentials, SSL toggle/port, cipher string and the `TLSPEM` list of
key-and-certificate texts. -/
structure Config where
  port : Nat := 0
  index : Nat := 0
  traceKey : String := ""
  ip : String := ""
  startResponseDelayInterval : Int := 0
  publishStartMessageInterval : Int := 0
  pruneStaleDropletsInterval : Int := 0
  dropletStaleThreshold : Int := 0
  publishActiveAppsInterval : Int := 0
  zone : String := ""
  endpointTimeout : Int := 0
  status : StatusConfig := {}
  nats : List NatsConfig := []
  logging : LoggingConfig := {}
  oauth : OAuthConfig := {}
  routeServiceSecret : String := ""
  tracing : Tracing := {}
  enableSSL : Bool := false
  sslPort : Nat := 0
  cipherString : String := ""
  tlsPEM : List PEMText := []

/-- Embedding of `generateConfig(statusPort, proxyPort uint16, natsPorts ...uint16)`;
`base` stands for the value returned by `config.DefaultConfig()`, whose code is
outside this repository slice. -/
def generateConfig (base : Config) (statusPort proxyPort : Nat)
    (natsPorts : List Nat) : Config :=
  { base with
    port := proxyPort
  , index := 2
  , traceKey := "my_trace_key"
  , ip := "127.0.0.1"
  , startResponseDelayInterval := 1 * timeSecond
  , publishStartMessageInterval := 10 * timeSecond
  , pruneStaleDropletsInterval := 0
  , dropletStaleThreshold := 10 * timeSecond
  , publishActiveAppsInterval := 0
  , zone := "z1"
  , endpointTimeout := 500 * timeMillisecond
  , status := { port := statusPort, user := "user", pass := "pass" }
  , nats := natsPorts.map fun natsPort =>
      { host := "localhost", port := natsPort, user := "nats", pass := "nats" }
  , logging := { level := "debug", metronAddress := "localhost:3457"
               , jobName := "router_test_z1_0" }
  , oauth := { tokenEndpoint := "uaa.cf.service.internal", port := 8443
             , skipSSLValidation := true }
  , routeServiceSecret := "kCvXxNMB0JO2vinxoru9Hg=="
  , tracing := { enableZipkin := true } }

/-- Environment for one `SpecSSLConfig` call: the `config.DefaultConfig()`
value and an environment for each of the two `CreateKeyPair` calls, in order. -/
structure SpecSSLEnv where
  base : Config
  env1 : RSAEnv
  env2 : RSAEnv

/-- Embedding of `SpecSSLConfig(statusPort, proxyPort, SSLPort uint16,
natsPorts ...uint16)`; the `fmt.Sprintf` with format string of two verbs
separated by a newline becomes append with a newline chunk between. -/
def specSSLConfig (e : SpecSSLEnv) (statusPort proxyPort sslPort : Nat)
    (natsPorts : List Nat) : Except TestFailure Config :=
  let c := generateConfig e.base statusPort proxyPort natsPorts
  let c := { c with enableSSL := true }
  match createKeyPair e.env1 "potato.com" with
  | .error err => .error err
  | .ok (key, cert) =>
    match createKeyPair e.env2 "potato2.com" with
    | .error err => .error err
    | .ok (secondKey, secondCert) =>
      let c := { c with
        tlsPEM := [ key ++ [PEMChunk.newline] ++ cert
                  , secondKey ++ [PEMChunk.newline] ++ secondCert ] }
      let c := { c with sslPort := sslPort }
      let c := { c with cipherString :=
        "TLS_ECDHE_RSA_WITH_AES_128_GCM_SHA256:TLS_ECDHE_RSA_WITH_AES_256_GCM_SHA384" }
      .ok c

/-- The certificate issued by a successful `CreateKeyPair` run, spelled out
field by field. -/
def rsaIssuedCert (env : RSAEnv) (cname : String) (r : Nat) (k : RSAPrivateKey) :
    Certificate :=
  { serialNumber := randIntValue r serialNumberLimit
  , subject := ⟨["xyz, Inc."], if cname = "" then none else some cname⟩
  , issuer := ⟨["xyz, Inc."], if cname = "" then none else some cname⟩
  , signatureAlgorithm := .sha256WithRSA
  , notBefore := env.now1
  , notAfter := env.now2 + timeHour
  , basicConstraintsValid := true
  , isCA := false
  , publicKey := .rsa k.publicKey
  , signedWith := .rsa k }

/-- Inversion: a successful `CreateKeyPair` run means every fallible step
succeeded, and the outputs are one key block and one certificate block with
the issued certificate. -/
theorem createKeyPair_ok_elim (env : RSAEnv) (cname : String)
    (p : PEMText × PEMText) (h : createKeyPair env cname = .ok p) :
    ∃ r k, env.serialRandom = .ok r ∧ env.rsaKey = .ok k ∧ env.signOk = true ∧
      p = ( [PEMChunk.block ⟨"RSA PRIVATE KEY", .pkcs1RSAKey k⟩]
          , [PEMChunk.block ⟨"CERTIFICATE", .certDER (rsaIssuedCert env cname r k)⟩] ) := by
  obtain ⟨now1, now2, serialRandom, rsaKey, signOk⟩ := env
  cases serialRandom with
  | error e => simp [createKeyPair] at h
  | ok r =>
    cases rsaKey with
    | error e => simp [createKeyPair] at h
    | ok k =>
      cases signOk with
      | false => simp [createKeyPair] at h
      | true =>
        refine ⟨r, k, rfl, rfl, rfl, ?_⟩
        simp only [createKeyPair] at h
        by_cases hc : cname = "" <;>
          simp only [hc, if_pos, if_neg, ne_eq, not_true_eq_false, not_false_eq_true,
            if_true, if_false, ite_true, ite_false] at h <;>
          simp_all [rsaIssuedCert, createCertificate, PkixName.toRDN,
            pemEncodeToMemory, hc]

/-- The certificate issued by a successful `CreateECKeyPair` run. -/
def ecIssuedCert (env : ECEnv) (cname : String) (r : Nat) (k : ECPrivateKey) :
    Certificate :=
  { serialNumber := randIntValue r serialNumberLimit
  , subject := ⟨["xyz, Inc."], if cname = "" then none else some cname⟩
  , issuer := ⟨["xyz, Inc."], if cname = "" then none else some cname⟩
  , signatureAlgorithm := .ecdsaWithSHA256
  , notBefore := env.now1
  , notAfter := env.now2 + timeHour
  , basicConstraintsValid := true
  , isCA := false
  , publicKey := .ec k.publicKey
  , signedWith := .ec k }

/-- The bytes the source actually puts in the `EC PARAMETERS` block: the
`asn1.Marshal` output when it succeeds, the `nil` slice when it fails (the
source never checks that error). -/
def ecParamBytes (env : ECEnv) : List Nat :=
  match env.asn1Marshal ecdsaOidValue with
  | .ok bs => bs
  | .error _ => []

/-- Inversion: a successful `CreateECKeyPair` run means every checked fallible
step succeeded (the `asn1.Marshal` outcome is unconstrained), and the key text
is the parameters block followed by the private-key block. -/
theorem createECKeyPair_ok_elim (env : ECEnv) (cname : String)
    (p : PEMText × PEMText) (h : createECKeyPair env cname = .ok p) :
    ∃ r k, env.serialRandom = .ok r ∧ env.ecKey = .ok k ∧ env.signOk = true ∧
      env.marshalECOk = true ∧
      p = ( [ PEMChunk.block ⟨"EC PARAMETERS", .raw (ecParamBytes env)⟩
            , PEMChunk.block ⟨"EC PRIVATE KEY", .sec1ECKey k⟩ ]
          , [PEMChunk.block ⟨"CERTIFICATE", .certDER (ecIssuedCert env cname r k)⟩] ) := by
  obtain ⟨now1, now2, serialRandom, ecKey, signOk, marshalECOk, asn1Marshal⟩ := env
  cases serialRandom with
  | error e => simp [createECKeyPair] at h
  | ok r =>
    cases ecKey with
    | error e => simp [createECKeyPair] at h
    | ok k =>
      cases signOk with
      | false => simp [createECKeyPair] at h
      | true =>
        cases marshalECOk with
        | false => simp [createECKeyPair] at h
        | true =>
          refine ⟨r, k, rfl, rfl, rfl, rfl, ?_⟩
          simp only [createECKeyPair] at h
          by_cases hc : cname = "" <;>
            simp only [hc, ne_eq, not_true_eq_false, not_false_eq_true,
              ite_true, ite_false] at h <;>
            simp_all [ecIssuedCert, ecParamBytes, createCertificate,
              PkixName.toRDN, pemEncodeToMemory, hc]

/-- A fully successful environment for an RSA generator run (both clock
readings coincide). -/
def okRSAEnv : RSAEnv :=
  { now1 := 0, now2 := 0, serialRandom := .ok 0, rsaKey := .ok ⟨0⟩, signOk := true }

/-- A fully successful environment for an EC generator run. -/
def okECEnv : ECEnv :=
  { now1 := 0, now2 := 0, serialRandom := .ok 0, ecKey := .ok ⟨0⟩
  , signOk := true, marshalECOk := true, asn1Marshal := fun bs => .ok bs }

/-- C1: for every common name given to `CreateKeyPair` or `CreateECKeyPair`,
the produced certificate's subject common name equals the input, and when the
input is the empty string the subject carries no common-name field at all,
only the fixed organization name. -/
theorem subject_common_name (cname : String) (re : RSAEnv) (ee : ECEnv)
    (rp ep : PEMText × PEMText)
    (hr : createKeyPair re cname = .ok rp)
    (he : createECKeyPair ee cname = .ok ep) :
    (∃ c, parsedCert rp.2 = some c ∧
       c.subject.organization = ["xyz, Inc."] ∧
       c.subject.commonName = if cname = "" then none else some cname) ∧
    (∃ c, parsedCert ep.2 = some c ∧
       c.subject.organization = ["xyz, Inc."] ∧
       c.subject.commonName = if cname = "" then none else some cname) := by
  obtain ⟨r, k, -, -, -, rfl⟩ := createKeyPair_ok_elim re cname rp hr
  obtain ⟨r2, k2, -, -, -, -, rfl⟩ := createECKeyPair_ok_elim ee cname ep he
  constructor
  · exact ⟨_, rfl, rfl, rfl⟩
  · exact ⟨_, rfl, rfl, rfl⟩

/-- C1 witness: both generators run to completion on a successful environment,
for a non-empty and for the empty common name. -/
theorem subject_common_name_witness :
    (∃ rp ep, createKeyPair okRSAEnv "potato.com" = .ok rp ∧
      createECKeyPair okECEnv "potato.com" = .ok ep ∧
      ((∃ c, parsedCert rp.2 = some c ∧
          c.subject.organization = ["xyz, Inc."] ∧
          c.subject.commonName = if "potato.com" = "" then none else some "potato.com") ∧
       (∃ c, parsedCert ep.2 = some c ∧
          c.subject.organization = ["xyz, Inc."] ∧
          c.subject.commonName = if "potato.com" = "" then none else some "potato.com"))) ∧
    (∃ rp ep, createKeyPair okRSAEnv "" = .ok rp ∧
      createECKeyPair okECEnv "" = .ok ep ∧
      ((∃ c, parsedCert rp.2 = some c ∧
          c.subject.organization = ["xyz, Inc."] ∧
          c.subject.commonName = if "" = "" then none else some "") ∧
       (∃ c, parsedCert ep.2 = some c ∧
          c.subject.organization = ["xyz, Inc."] ∧
          c.subject.commonName = if "" = "" then none else some ""))) :=
  ⟨⟨_, _, rfl, rfl, subject_common_name "potato.com" okRSAEnv okECEnv _ _ rfl rfl⟩,
   ⟨_, _, rfl, rfl, subject_common_name "" okRSAEnv okECEnv _ _ rfl rfl⟩⟩

/-- C2: for every common-name input and both generators, the produced
certificate is self-signed: its issuer equals its subject, it is signed with
the freshly generated private key of that call, and it certifies that same
key's public half. -/
theorem self_signed_invariant (cname : String) (re : RSAEnv) (ee : ECEnv)
    (rp ep : PEMText × PEMText) (rk : RSAPrivateKey) (ek : ECPrivateKey)
    (hrk : re.rsaKey = .ok rk) (hek : ee.ecKey = .ok ek)
    (hr : createKeyPair re cname = .ok rp)
    (he : createECKeyPair ee cname = .ok ep) :
    (∃ c, parsedCert rp.2 = some c ∧ c.issuer = c.subject ∧
       c.signedWith = .rsa rk ∧ c.publicKey = PrivKey.publicKey (.rsa rk)) ∧
    (∃ c, parsedCert ep.2 = some c ∧ c.issuer = c.subject ∧
       c.signedWith = .ec ek ∧ c.publicKey = PrivKey.publicKey (.ec ek)) := by
  obtain ⟨r, k, -, hk, -, rfl⟩ := createKeyPair_ok_elim re cname rp hr
  obtain ⟨r2, k2, -, hk2, -, -, rfl⟩ := createECKeyPair_ok_elim ee cname ep he
  rw [hrk] at hk
  rw [hek] at hk2
  cases hk
  cases hk2
  exact ⟨⟨_, rfl, rfl, rfl, rfl⟩, ⟨_, rfl, rfl, rfl, rfl⟩⟩

/-- C2 witness: instantiated on a successful environment for both generators. -/
theorem self_signed_invariant_witness :
    ∃ rp ep, createKeyPair okRSAEnv "potato.com" = .ok rp ∧
      createECKeyPair okECEnv "potato.com" = .ok ep ∧
      ((∃ c, parsedCert rp.2 = some c ∧ c.issuer = c.subject ∧
          c.signedWith = .rsa ⟨0⟩ ∧ c.publicKey = PrivKey.publicKey (.rsa ⟨0⟩)) ∧
       (∃ c, parsedCert ep.2 = some c ∧ c.issuer = c.subject ∧
          c.signedWith = .ec ⟨0⟩ ∧ c.publicKey = PrivKey.publicKey (.ec ⟨0⟩))) :=
  ⟨_, _, rfl, rfl,
    self_signed_invariant "potato.com" okRSAEnv okECEnv _ _ ⟨0⟩ ⟨0⟩ rfl rfl rfl rfl⟩

/-- An environment for `CreateECKeyPair` in which `asn1.Marshal` of the object
identifier fails; everything else succeeds. -/
def oidFailECEnv : ECEnv :=
  { now1 := 0, now2 := 0, serialRandom := .ok 0, ecKey := .ok ⟨0⟩
  , signOk := true, marshalECOk := true, asn1Marshal := fun _ => .error () }

/-- C3: when `asn1.Marshal` of the curve-parameters object identifier fails,
`CreateECKeyPair` does NOT fail — the source assigns the error but never
checks it — and it still returns key text, whose `EC PARAMETERS` block carries
the `nil` byte slice that the failed marshal returned. -/
theorem ec_oid_error_ignored :
    ∃ p, createECKeyPair oidFailECEnv "potato.com" = .ok p ∧
      pemBlocks p.1 = [ ⟨"EC PARAMETERS", .raw []⟩
                      , ⟨"EC PRIVATE KEY", .sec1ECKey ⟨0⟩⟩ ] :=
  ⟨_, rfl, rfl⟩

/-- An environment for `CreateKeyPair` in which one second elapses between the
two `time.Now()` readings. -/
def skewRSAEnv : RSAEnv :=
  { now1 := 0, now2 := timeSecond, serialRandom := .ok 0, rsaKey := .ok ⟨0⟩
  , signOk := true }

/-- C4 counterexample: `NotBefore` and `NotAfter` come from two separate
`time.Now()` calls, so when time elapses between them the validity window is
strictly longer than 3600 seconds. -/
theorem validity_window_counterexample :
    ∃ p, createKeyPair skewRSAEnv "potato.com" = .ok p ∧
      ∃ c, parsedCert p.2 = some c ∧
        ¬ (c.notAfter - c.notBefore = 3600 * timeSecond) :=
  ⟨_, rfl, _, rfl, by decide⟩

/-- C4 amended: the window starts at the first clock reading, and its length
is 3600 seconds plus the time elapsed between the two clock readings taken
during construction — exactly 3600 seconds precisely when the readings
coincide. -/
theorem validity_window_amended (cname : String) (re : RSAEnv) (ee : ECEnv)
    (rp ep : PEMText × PEMText)
    (hr : createKeyPair re cname = .ok rp)
    (he : createECKeyPair ee cname = .ok ep) :
    (∃ c, parsedCert rp.2 = some c ∧ c.notBefore = re.now1 ∧
       c.notAfter - c.notBefore = 3600 * timeSecond + (re.now2 - re.now1)) ∧
    (∃ c, parsedCert ep.2 = some c ∧ c.notBefore = ee.now1 ∧
       c.notAfter - c.notBefore = 3600 * timeSecond + (ee.now2 - ee.now1)) := by
  obtain ⟨r, k, -, -, -, rfl⟩ := createKeyPair_ok_elim re cname rp hr
  obtain ⟨r2, k2, -, -, -, -, rfl⟩ := createECKeyPair_ok_elim ee cname ep he
  refine ⟨⟨_, rfl, rfl, ?_⟩, ⟨_, rfl, rfl, ?_⟩⟩ <;>
    simp [rsaIssuedCert, ecIssuedCert, parsedCert, timeHour] <;> ring

/-- C4 amended witness: on an environment whose two clock readings coincide
the window is exactly 3600 seconds. -/
theorem validity_window_amended_witness :
    ∃ rp ep, createKeyPair okRSAEnv "potato.com" = .ok rp ∧
      createECKeyPair okECEnv "potato.com" = .ok ep ∧
      ((∃ c, parsedCert rp.2 = some c ∧ c.notBefore = okRSAEnv.now1 ∧
          c.notAfter - c.notBefore =
            3600 * timeSecond + (okRSAEnv.now2 - okRSAEnv.now1)) ∧
       (∃ c, parsedCert ep.2 = some c ∧ c.notBefore = okECEnv.now1 ∧
          c.notAfter - c.notBefore =
            3600 * timeSecond + (okECEnv.now2 - okECEnv.now1))) :=
  ⟨_, _, rfl, rfl,
    validity_window_amended "potato.com" okRSAEnv okECEnv _ _ rfl rfl⟩

/-- C5: for every common-name input, the key text returned by
`CreateECKeyPair`, split into PEM blocks, is exactly an `EC PARAMETERS` block
carrying the ASN.1 marshalling of the object identifier
`{1, 2, 840, 10045, 4, 3, 2}`, immediately followed by an `EC PRIVATE KEY`
block carrying the SEC1-encoded private key. -/
theorem ec_pem_block_order (cname : String) (ee : ECEnv)
    (ep : PEMText × PEMText) (ek : ECPrivateKey) (bs : List Nat)
    (hek : ee.ecKey = .ok ek)
    (hm : ee.asn1Marshal ecdsaOidValue = .ok bs)
    (he : createECKeyPair ee cname = .ok ep) :
    pemBlocks ep.1 = [ ⟨"EC PARAMETERS", .raw bs⟩
                     , ⟨"EC PRIVATE KEY", .sec1ECKey ek⟩ ] := by
  obtain ⟨r, k, -, hk, -, -, rfl⟩ := createECKeyPair_ok_elim ee cname ep he
  rw [hek] at hk
  cases hk
  simp [pemBlocks, ecParamBytes, hm]

/-- C5 witness: instantiated on a successful environment. -/
theorem ec_pem_block_order_witness :
    ∃ ep, createECKeyPair okECEnv "potato.com" = .ok ep ∧
      pemBlocks ep.1 = [ ⟨"EC PARAMETERS", .raw ecdsaOidValue⟩
                       , ⟨"EC PRIVATE KEY", .sec1ECKey ⟨0⟩⟩ ] :=
  ⟨_, rfl, ec_pem_block_order "potato.com" okECEnv _ ⟨0⟩ ecdsaOidValue rfl rfl rfl⟩

/-- When the leaf certificate's public key matches an RSA key, `tls.X509KeyPair`
on one certificate block and one `RSA PRIVATE KEY` block succeeds. -/
theorem x509KeyPair_rsa_ok (c : Certificate) (k : RSAPrivateKey)
    (h : c.publicKey = .rsa k.publicKey) :
    x509KeyPair [PEMChunk.block ⟨"CERTIFICATE", .certDER c⟩]
        [PEMChunk.block ⟨"RSA PRIVATE KEY", .pkcs1RSAKey k⟩] =
      .ok ⟨[c], .rsa k⟩ := by
  have e : x509KeyPair [PEMChunk.block ⟨"CERTIFICATE", .certDER c⟩]
      [PEMChunk.block ⟨"RSA PRIVATE KEY", .pkcs1RSAKey k⟩] =
      if c.publicKey = PrivKey.publicKey (PrivKey.rsa k)
      then Except.ok ⟨[c], PrivKey.rsa k⟩
      else Except.error TLSError.keyCertificateMismatch := rfl
  rw [e, if_pos (show c.publicKey = PrivKey.publicKey (PrivKey.rsa k) from h)]

/-- When the leaf certificate's public key matches an EC key, `tls.X509KeyPair`
on one certificate block and an `EC PARAMETERS` block followed by an
`EC PRIVATE KEY` block succeeds: the parameters block is skipped. -/
theorem x509KeyPair_ec_ok (c : Certificate) (k : ECPrivateKey) (bs : List Nat)
    (h : c.publicKey = .ec k.publicKey) :
    x509KeyPair [PEMChunk.block ⟨"CERTIFICATE", .certDER c⟩]
        [ PEMChunk.block ⟨"EC PARAMETERS", .raw bs⟩
        , PEMChunk.block ⟨"EC PRIVATE KEY", .sec1ECKey k⟩ ] =
      .ok ⟨[c], .ec k⟩ := by
  have e : x509KeyPair [PEMChunk.block ⟨"CERTIFICATE", .certDER c⟩]
      [ PEMChunk.block ⟨"EC PARAMETERS", .raw bs⟩
      , PEMChunk.block ⟨"EC PRIVATE KEY", .sec1ECKey k⟩ ] =
      if c.publicKey = PrivKey.publicKey (PrivKey.ec k)
      then Except.ok ⟨[c], PrivKey.ec k⟩
      else Except.error TLSError.keyCertificateMismatch := rfl
  rw [e, if_pos (show c.publicKey = PrivKey.publicKey (PrivKey.ec k) from h)]

/-- C6: for every (key, cert) pair produced by `CreateKeyPair`,
`tls.X509KeyPair` succeeds (no mismatch), and `CreateCert` returns that
credential; likewise for `CreateECKeyPair` and `CreateECCert`. -/
theorem tls_credential_success (cname : String) (re : RSAEnv) (ee : ECEnv)
    (rp ep : PEMText × PEMText)
    (hr : createKeyPair re cname = .ok rp)
    (he : createECKeyPair ee cname = .ok ep) :
    (∃ t, x509KeyPair rp.2 rp.1 = .ok t ∧ createCert re cname = .ok t) ∧
    (∃ t, x509KeyPair ep.2 ep.1 = .ok t ∧ createECCert ee cname = .ok t) := by
  obtain ⟨r, k, -, -, -, hp⟩ := createKeyPair_ok_elim re cname rp hr
  obtain ⟨r2, k2, -, -, -, -, hp2⟩ := createECKeyPair_ok_elim ee cname ep he
  subst hp
  subst hp2
  have h1 := x509KeyPair_rsa_ok (rsaIssuedCert re cname r k) k rfl
  have h2 := x509KeyPair_ec_ok (ecIssuedCert ee cname r2 k2) k2 (ecParamBytes ee) rfl
  exact ⟨⟨_, h1, by simp [createCert, hr, h1]⟩,
         ⟨_, h2, by simp [createECCert, he, h2]⟩⟩

/-- C6 witness: instantiated on successful environments. -/
theorem tls_credential_success_witness :
    ∃ rp ep, createKeyPair okRSAEnv "potato.com" = .ok rp ∧
      createECKeyPair okECEnv "potato.com" = .ok ep ∧
      ((∃ t, x509KeyPair rp.2 rp.1 = .ok t ∧
          createCert okRSAEnv "potato.com" = .ok t) ∧
       (∃ t, x509KeyPair ep.2 ep.1 = .ok t ∧
          createECCert okECEnv "potato.com" = .ok t)) :=
  ⟨_, _, rfl, rfl,
    tls_credential_success "potato.com" okRSAEnv okECEnv _ _ rfl rfl⟩

/-- C7: the serial number of every certificate produced by either generator is
the `rand.Int` draw from the environment's randomness, reduced below the limit
`1 <<< 128`; in particular it is strictly less than `2 ^ 128`. -/
theorem serial_number_bound (cname : String) (re : RSAEnv) (ee : ECEnv)
    (rp ep : PEMText × PEMText) (r1 r2 : Nat)
    (h1 : re.serialRandom = .ok r1) (h2 : ee.serialRandom = .ok r2)
    (hr : createKeyPair re cname = .ok rp)
    (he : createECKeyPair ee cname = .ok ep) :
    (∃ c, parsedCert rp.2 = some c ∧
       c.serialNumber = randIntValue r1 serialNumberLimit ∧
       c.serialNumber < 2 ^ 128) ∧
    (∃ c, parsedCert ep.2 = some c ∧
       c.serialNumber = randIntValue r2 serialNumberLimit ∧
       c.serialNumber < 2 ^ 128) := by
  have hlim : serialNumberLimit = 2 ^ 128 := by
    simp [serialNumberLimit, Nat.shiftLeft_eq]
  obtain ⟨r, k, hra, -, -, rfl⟩ := createKeyPair_ok_elim re cname rp hr
  obtain ⟨r2', k2, hra2, -, -, -, rfl⟩ := createECKeyPair_ok_elim ee cname ep he
  rw [h1] at hra
  rw [h2] at hra2
  cases hra
  cases hra2
  refine ⟨⟨_, rfl, rfl, ?_⟩, ⟨_, rfl, rfl, ?_⟩⟩ <;>
    simp [rsaIssuedCert, ecIssuedCert, randIntValue, hlim] <;>
    exact Nat.mod_lt _ (by positivity)

/-- C7 witness: instantiated on successful environments. -/
theorem serial_number_bound_witness :
    ∃ rp ep, createKeyPair okRSAEnv "potato.com" = .ok rp ∧
      createECKeyPair okECEnv "potato.com" = .ok ep ∧
      ((∃ c, parsedCert rp.2 = some c ∧
          c.serialNumber = randIntValue 0 serialNumberLimit ∧
          c.serialNumber < 2 ^ 128) ∧
       (∃ c, parsedCert ep.2 = some c ∧
          c.serialNumber = randIntValue 0 serialNumberLimit ∧
          c.serialNumber < 2 ^ 128)) :=
  ⟨_, _, rfl, rfl,
    serial_number_bound "potato.com" okRSAEnv okECEnv _ _ 0 0 rfl rfl rfl rfl⟩

/-- C8: both generators set `BasicConstraintsValid` to `true` in the template
they sign, so the produced certificate carries the flag. -/
theorem basic_constraints_valid (cname : String) (re : RSAEnv) (ee : ECEnv)
    (rp ep : PEMText × PEMText)
    (hr : createKeyPair re cname = .ok rp)
    (he : createECKeyPair ee cname = .ok ep) :
    (∃ c, parsedCert rp.2 = some c ∧ c.basicConstraintsValid = true) ∧
    (∃ c, parsedCert ep.2 = some c ∧ c.basicConstraintsValid = true) := by
  obtain ⟨r, k, -, -, -, rfl⟩ := createKeyPair_ok_elim re cname rp hr
  obtain ⟨r2, k2, -, -, -, -, rfl⟩ := createECKeyPair_ok_elim ee cname ep he
  exact ⟨⟨_, rfl, rfl⟩, ⟨_, rfl, rfl⟩⟩

/-- C8 witness: instantiated on successful environments. -/
theorem basic_constraints_valid_witness :
    ∃ rp ep, createKeyPair okRSAEnv "potato.com" = .ok rp ∧
      createECKeyPair okECEnv "potato.com" = .ok ep ∧
      ((∃ c, parsedCert rp.2 = some c ∧ c.basicConstraintsValid = true) ∧
       (∃ c, parsedCert ep.2 = some c ∧ c.basicConstraintsValid = true)) :=
  ⟨_, _, rfl, rfl,
    basic_constraints_valid "potato.com" okRSAEnv okECEnv _ _ rfl rfl⟩

/-- C9: the RSA generator's key text is a single PEM block labeled exactly
`RSA PRIVATE KEY` whose payload is the PKCS#1 encoding of the generated key,
and the certificate text of both generators is a single PEM block labeled
exactly `CERTIFICATE` carrying the certificate bytes. -/
theorem pem_labels (cname : String) (re : RSAEnv) (ee : ECEnv)
    (rp ep : PEMText × PEMText) (rk : RSAPrivateKey)
    (hrk : re.rsaKey = .ok rk)
    (hr : createKeyPair re cname = .ok rp)
    (he : createECKeyPair ee cname = .ok ep) :
    pemBlocks rp.1 = [⟨"RSA PRIVATE KEY", .pkcs1RSAKey rk⟩] ∧
    (∃ c, pemBlocks rp.2 = [⟨"CERTIFICATE", .certDER c⟩]) ∧
    (∃ c, pemBlocks ep.2 = [⟨"CERTIFICATE", .certDER c⟩]) := by
  obtain ⟨r, k, -, hk, -, rfl⟩ := createKeyPair_ok_elim re cname rp hr
  obtain ⟨r2, k2, -, -, -, -, rfl⟩ := createECKeyPair_ok_elim ee cname ep he
  rw [hrk] at hk
  cases hk
  exact ⟨rfl, ⟨_, rfl⟩, ⟨_, rfl⟩⟩

/-- C9 witness: instantiated on successful environments. -/
theorem pem_labels_witness :
    ∃ rp ep, createKeyPair okRSAEnv "potato.com" = .ok rp ∧
      createECKeyPair okECEnv "potato.com" = .ok ep ∧
      (pemBlocks rp.1 = [⟨"RSA PRIVATE KEY", .pkcs1RSAKey ⟨0⟩⟩] ∧
       (∃ c, pemBlocks rp.2 = [⟨"CERTIFICATE", .certDER c⟩]) ∧
       (∃ c, pemBlocks ep.2 = [⟨"CERTIFICATE", .certDER c⟩])) :=
  ⟨_, _, rfl, rfl,
    pem_labels "potato.com" okRSAEnv okECEnv _ _ ⟨0⟩ rfl rfl rfl⟩

/-- C10: `SpecSSLConfig` enables SSL, stores the supplied SSL port, and fills
`TLSPEM` with exactly two entries, each a generated key text, a newline, then
the matching certificate text, for the common names `potato.com` and
`potato2.com` in that order. -/
theorem spec_ssl_config_fields (e : SpecSSLEnv)
    (statusPort proxyPort sslPort : Nat) (natsPorts : List Nat) (c : Config)
    (h : specSSLConfig e statusPort proxyPort sslPort natsPorts = .ok c) :
    c.enableSSL = true ∧ c.sslPort = sslPort ∧
    ∃ k1 c1 k2 c2,
      createKeyPair e.env1 "potato.com" = .ok (k1, c1) ∧
      createKeyPair e.env2 "potato2.com" = .ok (k2, c2) ∧
      c.tlsPEM = [ k1 ++ [PEMChunk.newline] ++ c1
                 , k2 ++ [PEMChunk.newline] ++ c2 ] := by
  revert h
  unfold specSSLConfig
  cases h1 : createKeyPair e.env1 "potato.com" with
  | error err => intro h; cases h
  | ok p1 =>
    cases h2 : createKeyPair e.env2 "potato2.com" with
    | error err => intro h; cases h
    | ok p2 =>
      obtain ⟨k1, c1⟩ := p1
      obtain ⟨k2, c2⟩ := p2
      intro h
      cases h
      exact ⟨rfl, rfl, k1, c1, k2, c2, rfl, rfl, rfl⟩

/-- C10 witness: instantiated on a default base configuration and successful
key-pair environments. -/
theorem spec_ssl_config_fields_witness :
    ∃ c, specSSLConfig ⟨{}, okRSAEnv, okRSAEnv⟩ 7000 7001 7002 [7003] = .ok c ∧
      (c.enableSSL = true ∧ c.sslPort = 7002 ∧
       ∃ k1 c1 k2 c2,
         createKeyPair okRSAEnv "potato.com" = .ok (k1, c1) ∧
         createKeyPair okRSAEnv "potato2.com" = .ok (k2, c2) ∧
         c.tlsPEM = [ k1 ++ [PEMChunk.newline] ++ c1
                    , k2 ++ [PEMChunk.newline] ++ c2 ]) :=
  ⟨_, rfl, spec_ssl_config_fields ⟨{}, okRSAEnv, okRSAEnv⟩ 7000 7001 7002 [7003] _ rfl⟩
